import Mathlib

/-!
Shallow embedding of the nimo-crypto-tracker-api Lambdas
(src/src/lambdas/getCryptoPrice/index.js and the getSearchHistory handler
concatenated in the same file, plus both config.js files).

Modelling conventions:
  - JavaScript numbers that the code only compares and copies (prices,
    percentages, market caps, timestamps in milliseconds) are modelled as
    `Int`; ISO timestamp strings are modelled by their millisecond value.
  - Fallible I/O (the upstream HTTP call, DynamoDB, SES) is driven by
    explicit oracles passed in as arguments: the outcome of each upstream
    attempt, the fault injected into each DynamoDB put, the SES outcome.
  - `setTimeout` backoff sleeps are recorded in a trace instead of elapsing.
-/

namespace CryptoTracker

/-- Substring test modelling JavaScript `String.prototype.includes`:
`isPrefixList p l` is `l` starting with `p`. -/
def isPrefixList : List Char → List Char → Bool
  | [], _ => true
  | _ :: _, [] => false
  | p :: ps, c :: cs => p == c && isPrefixList ps cs

/-- Does `pat` occur as a contiguous run inside `l`. -/
def includesAux (pat : List Char) : List Char → Bool
  | [] => isPrefixList pat []
  | c :: cs => isPrefixList pat (c :: cs) || includesAux pat cs

/-- `strIncludes s pat` models `s.includes(pat)`. -/
def strIncludes (s pat : String) : Bool := includesAux pat.data s.data

/-- JavaScript truthiness of an optional string: absent, `undefined` and the
empty string are falsy. -/
def truthyOpt : Option String → Bool
  | none => false
  | some s => s ≠ ""

/-- Whether an `Except` is a success. -/
def exceptIsOk : Except ε α → Bool
  | .ok _ => true
  | .error _ => false

/-- The payload of a successful `Except`, if any. -/
def exceptGet : Except ε α → Option α
  | .ok a => some a
  | .error _ => none

/-- A single apostrophe character, used inside produced error messages. -/
def sq : String := (Char.ofNat 39).toString

/-- The parsed price payload returned to the caller of the fetch Lambda
(source: the object resolved at getCryptoPrice/index.js lines 172-178). -/
structure PriceQuote where
  cryptocurrency : String
  price : Int
  currency : String
  change24h : Int
  marketCap : Int
deriving DecidableEq, Repr

namespace GCP

/-- API_CONFIG.MAX_RETRIES from getCryptoPrice/config.js. -/
def MAX_RETRIES : Nat := 3

/-- API_CONFIG.BACKOFF_BASE (milliseconds) from getCryptoPrice/config.js. -/
def BACKOFF_BASE : Nat := 1000

/-- CACHE_TTL (milliseconds) from getCryptoPrice/index.js line 26. -/
def CACHE_TTL : Int := 60000

def RATE_LIMIT_EXCEEDED : String := "Rate limit exceeded. Please try again later."
def API_UNAVAILABLE : String := "CoinGecko API temporarily unavailable. Please try again."
def CRYPTO_NOT_FOUND : String := "Cryptocurrency not found."
def EMPTY_API_RESPONSE : String := "API returned empty response"
def INVALID_PRICE_DATA : String := "Invalid price data from API"
def NETWORK_UNREACHABLE : String := "Unable to reach CoinGecko API. Please check network."
def CONNECTION_TIMEOUT : String := "Connection to CoinGecko API timed out."
def TABLE_NOT_FOUND : String := "Database table not found. Please contact support."
def EMAIL_REJECTED : String := "Email rejected. Please verify the recipient address."
def EMAIL_NOT_VERIFIED : String := "Email address not verified in SES."
def MISSING_FIELDS : String := "Missing required fields: cryptocurrency and email"
def INVALID_JSON : String := "Invalid JSON in request body"
def CRYPTO_REQUIRED : String := "Cryptocurrency is required and must be a string"
def INVALID_CRYPTO_FORMAT : String := "Invalid cryptocurrency format"
def UNSUPPORTED_CRYPTO : String :=
  "Unsupported cryptocurrency. Supported: bitcoin, ethereum, solana, cardano, dogecoin, ripple, polkadot, litecoin, chainlink, stellar"
def EMAIL_REQUIRED : String := "Email is required and must be a string"
def INVALID_EMAIL_FORMAT : String := "Invalid email format"

/-- SUPPORTED_CRYPTOS from getCryptoPrice/config.js. -/
def SUPPORTED_CRYPTOS : List String :=
  ["bitcoin", "ethereum", "solana", "cardano", "dogecoin",
   "ripple", "polkadot", "litecoin", "chainlink", "stellar"]

end GCP

/-- One upstream HTTP attempt's observable outcome, covering every branch of
fetchCryptoPrice (getCryptoPrice/index.js lines 117-203): a non-200 status, a
wrong content type, an empty body, a JSON parse failure, a body missing the
requested asset key, a parsed payload (usd / usd_24h_change / usd_market_cap,
`none` standing for a missing or non-numeric field), a request error with a
Node errno code, or the 10s watchdog timeout firing. -/
inductive UpstreamResponse where
  | status (code : Nat)
  | badContentType
  | emptyBody
  | parseError
  | missingKey
  | payload (usd change cap : Option Int)
  | netErr (code : String) (msg : String)
  | timedOut
deriving DecidableEq, Repr

/-- fetchCryptoPrice (getCryptoPrice/index.js lines 117-203) as a function of
the upstream outcome: resolves with a PriceQuote or rejects with the exact
error message the source builds. -/
def fetchCryptoPrice (cryptoId : String) (r : UpstreamResponse) : Except String PriceQuote :=
  match r with
  | .status code =>
    .error (if code = 429 then GCP.RATE_LIMIT_EXCEEDED
      else if 500 ≤ code then GCP.API_UNAVAILABLE
      else if code = 404 then GCP.CRYPTO_NOT_FOUND
      else "API request failed with status " ++ toString code)
  | .badContentType => .error "API returned unexpected content type"
  | .emptyBody => .error GCP.EMPTY_API_RESPONSE
  | .parseError => .error "Unexpected token in JSON"
  | .missingKey =>
    .error ("Cryptocurrency " ++ sq ++ cryptoId ++ sq ++ " not found in API response")
  | .payload usd chg cap =>
    match usd with
    | none => .error GCP.INVALID_PRICE_DATA
    | some p =>
      if p < 0 then .error GCP.INVALID_PRICE_DATA
      else .ok ⟨cryptoId, p, "usd", chg.getD 0, cap.getD 0⟩
  | .netErr code msg =>
    .error (if code = "ENOTFOUND" then GCP.NETWORK_UNREACHABLE
      else if code = "ETIMEDOUT" then GCP.CONNECTION_TIMEOUT
      else "Network error: " ++ msg)
  | .timedOut => .error "Request timeout after 10000ms"

/-- isRetryableError (getCryptoPrice/index.js lines 205-211): substring tests
on the error message. -/
def isRetryableError (msg : String) : Bool :=
  strIncludes msg "timeout" ||
  strIncludes msg "temporarily unavailable" ||
  strIncludes msg "Rate limit" ||
  strIncludes msg "Network error" ||
  strIncludes msg "status 5"

/-- A cache row as written by setCachedPrice: the write time (milliseconds)
and the cached quote. -/
structure CacheItem where
  timestamp : Int
  priceData : PriceQuote
deriving DecidableEq, Repr

/-- getCachedPrice (getCryptoPrice/index.js lines 73-95): a storage error is
treated as a miss, a present row is a hit only while its age is strictly
below CACHE_TTL. -/
def getCachedPrice (now : Int) (read : Except Unit (Option CacheItem)) : Option PriceQuote :=
  match read with
  | .error _ => none
  | .ok none => none
  | .ok (some item) =>
    if now - item.timestamp < GCP.CACHE_TTL then some item.priceData else none

/-- Trace of one fetchCryptoPriceWithRetry run: the final outcome, how many
upstream attempts were made, the backoff sleeps injected (milliseconds, in
order), and the write-through to the cache if one happened. -/
structure FetchTrace where
  result : Except String PriceQuote
  upstreamCalls : Nat
  sleeps : List Nat
  cacheWrite : Option PriceQuote
deriving Repr

/-- The retry loop of fetchCryptoPriceWithRetry (getCryptoPrice/index.js lines
219-239), driven by the per-attempt upstream outcome. `fuel` starts at
MAX_RETRIES and only bounds the recursion; the loop itself stops on success,
on a non-retryable error, or when `attempt` reaches MAX_RETRIES. -/
def fetchLoop (cryptoId : String) (upstream : Nat → UpstreamResponse) :
    Nat → Nat → FetchTrace
  | _, 0 => ⟨.error "", 0, [], none⟩
  | attempt, fuel + 1 =>
    match fetchCryptoPrice cryptoId (upstream attempt) with
    | .ok q => ⟨.ok q, 1, [], some q⟩
    | .error e =>
      if !isRetryableError e || attempt == GCP.MAX_RETRIES then
        ⟨.error ("Failed to fetch price after 3 attempts: " ++ e), 1, [], none⟩
      else
        let t := fetchLoop cryptoId upstream (attempt + 1) fuel
        ⟨t.result, t.upstreamCalls + 1, GCP.BACKOFF_BASE * 2 ^ (attempt - 1) :: t.sleeps,
          t.cacheWrite⟩

/-- fetchCryptoPriceWithRetry (getCryptoPrice/index.js lines 213-240): cache
consulted first, a hit short-circuits with zero upstream calls. -/
def fetchCryptoPriceWithRetry (cryptoId : String) (now : Int)
    (read : Except Unit (Option CacheItem)) (upstream : Nat → UpstreamResponse) : FetchTrace :=
  match getCachedPrice now read with
  | some q => ⟨.ok q, 0, [], none⟩
  | none => fetchLoop cryptoId upstream 1 GCP.MAX_RETRIES

/-- A history row as written by storeSearchHistory (getCryptoPrice/index.js
lines 244-250): the generated id, write time, record type, retention ttl
(seconds), and the spread of `{...priceData, email}`. -/
structure HistoryItem where
  id : String
  timestamp : Int
  recordType : String
  ttl : Int
  email : String
  cryptocurrency : String
  price : Int
  currency : String
  change24h : Int
  marketCap : Int
deriving DecidableEq, Repr

/-- The item built at the top of storeSearchHistory for one attempt. -/
def mkHistoryItem (id : String) (now : Int) (quote : PriceQuote) (email : String) :
    HistoryItem :=
  { id := id, timestamp := now, recordType := "SEARCH",
    ttl := now / 1000 + 90 * 24 * 60 * 60, email := email,
    cryptocurrency := quote.cryptocurrency, price := quote.price,
    currency := quote.currency, change24h := quote.change24h,
    marketCap := quote.marketCap }

/-- The DynamoDB error kinds storeSearchHistory distinguishes by `error.name`
(getCryptoPrice/index.js lines 261-277), plus the conditional-check rejection
the storage layer raises when the id already exists. -/
inductive DynErrorKind where
  | conditionalCheckFailed
  | provisionedThroughputExceeded
  | resourceNotFound
  | internalFailure
deriving DecidableEq, Repr

/-- The `error.name` of each DynamoDB error kind (also used as the modelled
`error.message`, whose exact text the SDK owns). -/
def dynErrorName : DynErrorKind → String
  | .conditionalCheckFailed => "ConditionalCheckFailedException"
  | .provisionedThroughputExceeded => "ProvisionedThroughputExceededException"
  | .resourceNotFound => "ResourceNotFoundException"
  | .internalFailure => "InternalFailure"

/-- One conditional PutCommand with `attribute_not_exists(id)` against the
table: an injected service fault rejects the write; otherwise the write
succeeds exactly when no row with the item's id exists, and never replaces an
existing row. -/
def putConditional (store : List HistoryItem) (item : HistoryItem)
    (fault : Option DynErrorKind) : Except DynErrorKind (List HistoryItem) :=
  match fault with
  | some e => .error e
  | none =>
    if store.any (fun r => r.id = item.id) then .error .conditionalCheckFailed
    else .ok (item :: store)

/-- Trace of one storeSearchHistory call: the outcome, the table rows after
the call, the backoff sleeps injected, and how many put attempts were made. -/
structure StoreTrace where
  result : Except String HistoryItem
  store : List HistoryItem
  sleeps : List Nat
  attempts : Nat
deriving Repr

/-- storeSearchHistory (getCryptoPrice/index.js lines 242-278). Each attempt
regenerates the item — `uuidv4()` is modelled by `ids attempt` — and only a
ProvisionedThroughputExceededException with `attempt < MAX_RETRIES` recurses;
a ResourceNotFoundException maps to TABLE_NOT_FOUND and every other error to
the generic wrapped message. `fuel` only bounds the recursion; it starts at
MAX_RETRIES, which the `attempt < MAX_RETRIES` guard never exceeds. -/
def storeGo (quote : PriceQuote) (email : String) (now : Int) (ids : Nat → String)
    (faults : Nat → Option DynErrorKind) (store : List HistoryItem) :
    Nat → Nat → StoreTrace
  | _, 0 => ⟨.error "out of fuel", store, [], 0⟩
  | attempt, fuel + 1 =>
    let item := mkHistoryItem (ids attempt) now quote email
    match putConditional store item (faults attempt) with
    | .ok newStore => ⟨.ok item, newStore, [], 1⟩
    | .error e =>
      if e = .provisionedThroughputExceeded ∧ attempt < GCP.MAX_RETRIES then
        let t := storeGo quote email now ids faults store (attempt + 1) fuel
        ⟨t.result, t.store, GCP.BACKOFF_BASE * 2 ^ (attempt - 1) :: t.sleeps, t.attempts + 1⟩
      else if e = .resourceNotFound then
        ⟨.error GCP.TABLE_NOT_FOUND, store, [], 1⟩
      else
        ⟨.error ("Failed to store search history: " ++ dynErrorName e), store, [], 1⟩

/-- storeSearchHistory entered at attempt 1 as the handler calls it. -/
def storeSearchHistory (quote : PriceQuote) (email : String) (now : Int)
    (ids : Nat → String) (faults : Nat → Option DynErrorKind)
    (store : List HistoryItem) : StoreTrace :=
  storeGo quote email now ids faults store 1 GCP.MAX_RETRIES

/-- An SES failure as seen in the catch of sendEmailNotification: the error
name and message the SDK raised. -/
structure SesErr where
  name : String
  message : String
deriving DecidableEq, Repr

/-- sendEmailNotification (getCryptoPrice/index.js lines 280-307) as a
function of the SES outcome: failures are re-thrown with the mapped message. -/
def sendEmailNotification (r : Except SesErr Unit) : Except String Unit :=
  match r with
  | .ok _ => .ok ()
  | .error e =>
    .error (if e.name = "MessageRejected" then GCP.EMAIL_REJECTED
      else if strIncludes e.message "not verified" then GCP.EMAIL_NOT_VERIFIED
      else "Email delivery failed: " ++ e.message)

/-- ASCII whitespace for the `trim` model. -/
def isWs (c : Char) : Bool :=
  c = ' ' || c = Char.ofNat 9 || c = Char.ofNat 10 || c = Char.ofNat 13

/-- ASCII lowercasing of one character, modelling `toLowerCase` on the ASCII
inputs the validators accept. -/
def toLowerChar (c : Char) : Char :=
  if c ≥ 'A' && c ≤ 'Z' then Char.ofNat (c.toNat + 32) else c

/-- Lowercase every character of a string. -/
def lowerStr (s : String) : String := ⟨s.data.map toLowerChar⟩

/-- Model of `s.toLowerCase().trim()`. -/
def lowerTrim (s : String) : String :=
  ⟨(((s.data.map toLowerChar).dropWhile isWs).reverse.dropWhile isWs).reverse⟩

/-- ASCII letter or digit. -/
def isAlnumAscii (c : Char) : Bool :=
  (c ≥ 'a' && c ≤ 'z') || (c ≥ 'A' && c ≤ 'Z') || (c ≥ '0' && c ≤ '9')

/-- VALIDATION_RULES.CRYPTO_PATTERN, the anchored regex over a-z, 0-9 and
hyphen, requiring at least one character. -/
def cryptoPattern (s : String) : Bool :=
  s.data ≠ [] && s.data.all (fun c => (c ≥ 'a' && c ≤ 'z') || (c ≥ '0' && c ≤ '9') || c = '-')

/-- Splits a character list on a separator character; the separators are
dropped and empty segments are kept, as JavaScript `split` does. -/
def splitOnChar (sep : Char) : List Char → List (List Char)
  | [] => [[]]
  | x :: xs =>
    let r := splitOnChar sep xs
    if x = sep then [] :: r
    else
      match r with
      | [] => [[x]]
      | y :: ys => (x :: y) :: ys

/-- The extra characters (besides letters and digits) the local part of
VALIDATION_RULES.EMAIL_PATTERN accepts; the apostrophe, backtick, braces and
bar are built from their code points. -/
def emailLocalExtraChars : List Char :=
  ['.', '!', '#', '$', '%', '&', '*', '+', '/', '=', '?', '^', '_', '~', '-'] ++
  [Char.ofNat 39, Char.ofNat 96, Char.ofNat 123, Char.ofNat 124, Char.ofNat 125]

/-- One character admissible in the local part of the email pattern. -/
def emailLocalCharOk (c : Char) : Bool :=
  isAlnumAscii c || emailLocalExtraChars.contains c

/-- One DNS label of the email pattern's domain:
`[a-zA-Z0-9](?:[a-zA-Z0-9-]{0,61}[a-zA-Z0-9])?` — length 1 to 63, first and
last characters alphanumeric, hyphens allowed in between. -/
def labelOk (l : List Char) : Bool :=
  l ≠ [] && l.length ≤ 63 && isAlnumAscii (l.headD ' ') && isAlnumAscii (l.getLastD ' ') &&
    l.all (fun c => isAlnumAscii c || c = '-')

/-- VALIDATION_RULES.EMAIL_PATTERN: a non-empty local part of admissible
characters, one at-sign, and a dot-separated sequence of valid labels. -/
def emailPattern (s : String) : Bool :=
  match splitOnChar '@' s.data with
  | [lp, dom] => lp ≠ [] && lp.all emailLocalCharOk && (splitOnChar '.' dom).all labelOk
  | _ => false

/-- validateInput (getCryptoPrice/index.js lines 42-71). Absent or non-string
fields are modelled as `none`; the checks and the produced error messages
follow the source order exactly. -/
def validateInput (cryptocurrency email : Option String) : Except String (String × String) :=
  match cryptocurrency with
  | none => .error GCP.CRYPTO_REQUIRED
  | some c0 =>
    if c0 = "" then .error GCP.CRYPTO_REQUIRED
    else
      let crypto := lowerTrim c0
      if crypto = "" || crypto.data.length > 50 || !cryptoPattern crypto then
        .error GCP.INVALID_CRYPTO_FORMAT
      else if !GCP.SUPPORTED_CRYPTOS.contains crypto then .error GCP.UNSUPPORTED_CRYPTO
      else
        match email with
        | none => .error GCP.EMAIL_REQUIRED
        | some e0 =>
          if e0 = "" then .error GCP.EMAIL_REQUIRED
          else
            let em := lowerTrim e0
            if !emailPattern em || em.data.length > 254 then .error GCP.INVALID_EMAIL_FORMAT
            else .ok (crypto, em)

/-- mapErrorToStatusCode of the fetch Lambda (getCryptoPrice/index.js lines
317-334). -/
def mapErrorToStatusCode (msg : String) : Nat :=
  if strIncludes msg "Failed to fetch" then 503
  else if strIncludes msg "Failed to store" then 503
  else if strIncludes msg "Rate limit" then 429
  else if strIncludes msg "not found" then 404
  else if strIncludes msg "misconfigured" then 500
  else 500

/-- The parsed JSON request body of the fetch endpoint; a missing or
non-string field is `none`. -/
structure RequestBody where
  cryptocurrency : Option String
  email : Option String
deriving DecidableEq, Repr

/-- The `data` object of a successful or partial-success fetch response:
`{id: storedData.id, ...priceData, timestamp: storedData.timestamp}`. -/
structure FetchData where
  id : String
  quote : PriceQuote
  timestamp : Int
deriving DecidableEq, Repr

/-- The JSON body of a fetch-endpoint response; `none` in an `Option` field
means the field is absent from the serialized body. -/
structure FetchBody where
  success : Bool
  message : Option String := none
  warning : Option String := none
  error : Option String := none
  data : Option FetchData := none
  requestId : String
  duration : Option Int := none
deriving DecidableEq, Repr

/-- Everything one invocation of the fetch handler observes: the request and
the oracles for the cache read, the upstream attempts, the uuid generator,
the DynamoDB faults, the prior table rows and the SES outcome. `duration`
stands for the `Date.now() - startTime` value at response time. -/
structure FetchEnv where
  isOptions : Bool
  requestId : String
  duration : Int
  parse : Except Unit RequestBody
  now : Int
  cacheRead : Except Unit (Option CacheItem)
  upstream : Nat → UpstreamResponse
  ids : Nat → String
  storeFaults : Nat → Option DynErrorKind
  store : List HistoryItem
  ses : Except SesErr Unit

/-- A fetch-handler outcome: the HTTP response (body absent only for the
OPTIONS preflight) plus the table rows and cache write-through after the
invocation, recorded to state frame conditions. -/
structure FetchOutcome where
  statusCode : Nat
  body : Option FetchBody
  store : List HistoryItem
  cacheWrite : Option PriceQuote
deriving Repr

/-- The catch-all error response of the fetch handler (getCryptoPrice/index.js
lines 432-459): 500-status messages other than the misconfiguration one are
masked as `Internal server error`. -/
def fetchCatch (env : FetchEnv) (msg : String) (store : List HistoryItem)
    (cw : Option PriceQuote) : FetchOutcome :=
  let sc := mapErrorToStatusCode msg
  let emsg := if sc = 500 && !strIncludes msg "misconfigured" then "Internal server error" else msg
  let b : FetchBody :=
    { success := false, error := some emsg, requestId := env.requestId,
      duration := some env.duration }
  ⟨sc, some b, store, cw⟩

/-- The fetch Lambda handler (getCryptoPrice/index.js lines 336-460):
OPTIONS preflight, body parse, missing-field check, validation, fetch with
retry, history append, then best-effort notification whose failure yields the
207 partial-success response. -/
def cryptoPriceHandler (env : FetchEnv) : FetchOutcome :=
  if env.isOptions then ⟨200, none, env.store, none⟩
  else
    match env.parse with
    | .error _ => fetchCatch env GCP.INVALID_JSON env.store none
    | .ok body =>
      if !truthyOpt body.cryptocurrency || !truthyOpt body.email then
        let b : FetchBody :=
          { success := false, error := some GCP.MISSING_FIELDS, requestId := env.requestId }
        ⟨400, some b, env.store, none⟩
      else
        match validateInput body.cryptocurrency body.email with
        | .error msg =>
          let b : FetchBody :=
            { success := false, error := some msg, requestId := env.requestId }
          ⟨400, some b, env.store, none⟩
        | .ok (crypto, email) =>
          let ft := fetchCryptoPriceWithRetry crypto env.now env.cacheRead env.upstream
          match ft.result with
          | .error msg => fetchCatch env msg env.store ft.cacheWrite
          | .ok quote =>
            let st := storeSearchHistory quote email env.now env.ids env.storeFaults env.store
            match st.result with
            | .error msg => fetchCatch env msg st.store ft.cacheWrite
            | .ok item =>
              match sendEmailNotification env.ses with
              | .error _ =>
                let b : FetchBody :=
                  { success := true,
                    warning := some "Email delivery failed, but data was saved successfully",
                    data := some ⟨item.id, quote, item.timestamp⟩,
                    requestId := env.requestId, duration := some env.duration }
                ⟨207, some b, st.store, ft.cacheWrite⟩
              | .ok _ =>
                let b : FetchBody :=
                  { success := true,
                    message := some "Price fetched and email sent successfully",
                    data := some ⟨item.id, quote, item.timestamp⟩,
                    requestId := env.requestId, duration := some env.duration }
                ⟨200, some b, st.store, ft.cacheWrite⟩

namespace GSH

/-- DYNAMODB_CONFIG.DEFAULT_LIMIT from getSearchHistory/config.js. -/
def DEFAULT_LIMIT : Nat := 100

/-- DYNAMODB_CONFIG.MAX_LIMIT from getSearchHistory/config.js. -/
def MAX_LIMIT : Int := 500

def INVALID_LIMIT : String := "Limit must be a valid number greater than 0"
def LIMIT_EXCEEDED : String := "Limit cannot exceed 500"
def INVALID_EMAIL_FORMAT : String := "Invalid email format"
def INVALID_CRYPTO_FORMAT : String := "Invalid cryptocurrency format"
def INVALID_PAGINATION_TOKEN : String := "Invalid pagination token"
def TABLE_NOT_FOUND : String := "Database table or index not found. Please contact support."
def INDEX_NOT_AVAILABLE : String := "Email search index not available. Please contact support."
def HIGH_LOAD : String := "Service experiencing high load. Please try again."
def QUERY_FAILED : String := "Database query failed"

end GSH

/-- The pagination-token plumbing of the query Lambda. `encode` models
`Buffer.from(JSON.stringify(key)).toString(base64)` over the storage key of
the last evaluated row (a `String` in this model); `decode` models
`JSON.parse(Buffer.from(token, base64).toString(utf-8))`, failing exactly on
tokens that do not decode to valid structured data; `decode_encode` is the
round-trip law those library functions satisfy. -/
structure TokenCodec where
  encode : String → String
  decode : String → Option String
  decode_encode : ∀ k, decode (encode k) = some k

/-- Digits of a decimal literal to a natural number. -/
def digitsToNat (l : List Char) : Nat :=
  l.foldl (fun a c => a * 10 + (c.toNat - 48)) 0

/-- JavaScript `parseInt(s, 10)`: leading whitespace skipped, an optional
sign, then the maximal run of digits; `none` models `NaN`. Trailing
characters are ignored. -/
def parseIntJs (s : String) : Option Int :=
  let l := s.data.dropWhile isWs
  let signed : Int × List Char :=
    match l with
    | c :: rest => if c = '-' then (-1, rest) else if c = '+' then (1, rest) else (1, l)
    | [] => (1, [])
  let digits := signed.2.takeWhile (fun c => c ≥ '0' && c ≤ '9')
  if digits = [] then none else some (signed.1 * (digitsToNat digits : Int))

/-- The raw query-string parameters of the history endpoint. -/
structure QueryParams where
  limit : Option String := none
  email : Option String := none
  cryptocurrency : Option String := none
  nextToken : Option String := none
deriving DecidableEq, Repr

/-- The validated query input assembled by validateQueryParams. -/
structure ValidatedQuery where
  limit : Nat
  email : Option String := none
  cryptocurrency : Option String := none
  nextToken : Option String := none
deriving DecidableEq, Repr

/-- The limit block of validateQueryParams (getSearchHistory lines 490-501):
a falsy parameter defaults to 100; `NaN` or a value below 1 is rejected, a
value above MAX_LIMIT is rejected, not clamped. -/
def validateLimit (p : Option String) : Except String Nat :=
  match p with
  | none => .ok GSH.DEFAULT_LIMIT
  | some s =>
    if s = "" then .ok GSH.DEFAULT_LIMIT
    else
      match parseIntJs s with
      | none => .error GSH.INVALID_LIMIT
      | some n =>
        if n < 1 then .error GSH.INVALID_LIMIT
        else if n > GSH.MAX_LIMIT then .error GSH.LIMIT_EXCEEDED
        else .ok n.toNat

/-- The email block of validateQueryParams (getSearchHistory lines 503-512). -/
def validateEmailParam (p : Option String) : Except String (Option String) :=
  match p with
  | none => .ok none
  | some s =>
    if s = "" then .ok none
    else
      let em := lowerTrim s
      if em = "" || !emailPattern em || em.data.length > 254 then
        .error GSH.INVALID_EMAIL_FORMAT
      else .ok (some em)

/-- The cryptocurrency block of validateQueryParams (getSearchHistory lines
514-523); note there is no allow-list check on the query side. -/
def validateCryptoParam (p : Option String) : Except String (Option String) :=
  match p with
  | none => .ok none
  | some s =>
    if s = "" then .ok none
    else
      let cr := lowerTrim s
      if cr = "" || cr.data.length > 50 || !cryptoPattern cr then
        .error GSH.INVALID_CRYPTO_FORMAT
      else .ok (some cr)

/-- The nextToken block of validateQueryParams (getSearchHistory lines
525-533): the token must decode, and the original token string — not the
decoded key — is what validation passes through. -/
def validateTokenParam (codec : TokenCodec) (p : Option String) :
    Except String (Option String) :=
  match p with
  | none => .ok none
  | some t =>
    if t = "" then .ok none
    else
      match codec.decode t with
      | some _ => .ok (some t)
      | none => .error GSH.INVALID_PAGINATION_TOKEN

/-- validateQueryParams (getSearchHistory lines 487-536), in source order:
limit, email, cryptocurrency, nextToken. -/
def validateQueryParams (codec : TokenCodec) (p : QueryParams) :
    Except String ValidatedQuery :=
  match validateLimit p.limit with
  | .error e => .error e
  | .ok lim =>
    match validateEmailParam p.email with
    | .error e => .error e
    | .ok em =>
      match validateCryptoParam p.cryptocurrency with
      | .error e => .error e
      | .ok cr =>
        match validateTokenParam codec p.nextToken with
        | .error e => .error e
        | .ok tok => .ok ⟨lim, em, cr, tok⟩

/-- The rows of a secondary index after an exclusive start key: all of them
when no key is given, otherwise the rows strictly after the row carrying the
key. -/
def afterKey (items : List HistoryItem) : Option String → List HistoryItem
  | none => items
  | some k => (items.dropWhile (fun r => r.id ≠ k)).drop 1

/-- One DynamoDB Query against an index ordering (modelled as the listed
rows in index order): returns at most `limit` rows from the start position
and a LastEvaluatedKey exactly when rows remain beyond the page. -/
def dynamoQueryPage (items : List HistoryItem) (limit : Nat) (startKey : Option String) :
    List HistoryItem × Option String :=
  let rest := afterKey items startKey
  let page := rest.take limit
  (page, if limit < rest.length then page.getLast?.map (fun r => r.id) else none)

/-- A query Lambda result: the page and the base64 cursor, when more data
exists. -/
structure QueryResult where
  items : List HistoryItem
  nextToken : Option String
deriving DecidableEq, Repr

/-- A traced query call: the outcome plus the start keys of the storage
queries actually executed (empty when the call failed before storage). -/
structure QueryTrace where
  result : Except String QueryResult
  storageCalls : List (Option String)
deriving Repr

/-- The shared body of queryHistoryByEmail and queryRecentHistory
(getSearchHistory lines 538-631): decode the cursor if one was given — a
decode failure throws before the storage query and is wrapped by the catch
into the generic QUERY_FAILED message — then run the page query and encode
the LastEvaluatedKey, when present, as the new cursor. -/
def runQuery (codec : TokenCodec) (ordering : List HistoryItem) (limit : Nat)
    (nextToken : Option String) : QueryTrace :=
  match nextToken with
  | none =>
    let pr := dynamoQueryPage ordering limit none
    ⟨.ok ⟨pr.1, pr.2.map codec.encode⟩, [none]⟩
  | some t =>
    match codec.decode t with
    | none => ⟨.error (GSH.QUERY_FAILED ++ ": invalid pagination token payload"), []⟩
    | some k =>
      let pr := dynamoQueryPage ordering limit (some k)
      ⟨.ok ⟨pr.1, pr.2.map codec.encode⟩, [some k]⟩

/-- Insert a row into a list kept descending by timestamp (stable for equal
timestamps), modelling the sort order of a DynamoDB GSI queried with
ScanIndexForward false. -/
def insertDesc (x : HistoryItem) : List HistoryItem → List HistoryItem
  | [] => [x]
  | y :: ys => if x.timestamp ≤ y.timestamp then y :: insertDesc x ys else x :: y :: ys

/-- The descending-by-timestamp index ordering over a set of rows. -/
def sortByTimestampDesc : List HistoryItem → List HistoryItem
  | [] => []
  | x :: xs => insertDesc x (sortByTimestampDesc xs)

/-- The email-timestamp-index ordering: the rows carrying the given email,
descending by time. -/
def emailOrdering (store : List HistoryItem) (email : String) : List HistoryItem :=
  sortByTimestampDesc (store.filter (fun r => r.email = email))

/-- The type-timestamp-index ordering: the SEARCH rows, descending by time. -/
def recentOrdering (store : List HistoryItem) : List HistoryItem :=
  sortByTimestampDesc (store.filter (fun r => r.recordType = "SEARCH"))

/-- queryHistoryByEmail (getSearchHistory lines 538-579). -/
def queryHistoryByEmail (codec : TokenCodec) (store : List HistoryItem) (email : String)
    (limit : Nat) (nextToken : Option String) : QueryTrace :=
  runQuery codec (emailOrdering store email) limit nextToken

/-- queryRecentHistory (getSearchHistory lines 584-631). -/
def queryRecentHistory (codec : TokenCodec) (store : List HistoryItem)
    (limit : Nat) (nextToken : Option String) : QueryTrace :=
  runQuery codec (recentOrdering store) limit nextToken

/-- filterByCryptocurrency (getSearchHistory lines 633-639): in-memory
post-filter; a row with a falsy cryptocurrency field never matches. -/
def filterByCryptocurrency (items : List HistoryItem) (cryptocurrency : String) :
    List HistoryItem :=
  items.filter (fun r => r.cryptocurrency ≠ "" && lowerStr r.cryptocurrency = lowerStr cryptocurrency)

/-- One sanitized row as assembled by sanitizeItems (getSearchHistory lines
641-654): the 8 public fields, with documented defaults for falsy values. -/
structure SanItem where
  id : String
  cryptocurrency : String
  price : Int
  currency : String
  change24h : Int
  marketCap : Int
  email : String
  timestamp : Int
deriving DecidableEq, Repr

/-- sanitizeItems over the typed rows of this model: `x || default` on a
string field replaces only the empty string; the numeric fields are always
numbers here, so their typeof checks are identities. -/
def sanitizeItems (items : List HistoryItem) : List SanItem :=
  items.map fun item =>
    { id := if item.id = "" then "unknown" else item.id,
      cryptocurrency := if item.cryptocurrency = "" then "unknown" else item.cryptocurrency,
      price := item.price,
      currency := if item.currency = "" then "usd" else item.currency,
      change24h := item.change24h,
      marketCap := item.marketCap,
      email := item.email,
      timestamp := item.timestamp }

/-- mapErrorToStatusCode of the query Lambda (getSearchHistory lines
656-664). -/
def mapErrorToStatusCodeHist (msg : String) : Nat :=
  if strIncludes msg "Database" || strIncludes msg "not found" ||
      strIncludes msg "not available" || strIncludes msg "high load" then 503
  else 500

/-- The JSON body of a history-endpoint response; `none` means the field is
absent, and the inner `Option` of `email`, `cryptocurrency` and `nextToken`
models an explicit JSON null. -/
structure HistBody where
  success : Bool
  error : Option String := none
  count : Option Nat := none
  limit : Option Nat := none
  email : Option (Option String) := none
  cryptocurrency : Option (Option String) := none
  data : Option (List SanItem) := none
  nextToken : Option (Option String) := none
  hasMore : Option Bool := none
  requestId : String
  duration : Option Int := none
deriving DecidableEq, Repr

/-- Everything one invocation of the history handler observes. -/
structure HistEnv where
  isOptions : Bool
  requestId : String
  duration : Int
  params : QueryParams
  store : List HistoryItem
  codec : TokenCodec

/-- A history-handler outcome: the response plus the start keys of the
storage queries executed. -/
structure HistOutcome where
  statusCode : Nat
  body : Option HistBody
  storageCalls : List (Option String)
deriving Repr

/-- The index selection of the history handler (getSearchHistory lines
702-711): by recipient when an email filter was validated, by recency
otherwise. -/
def historyQueryOf (env : HistEnv) (v : ValidatedQuery) : QueryTrace :=
  match v.email with
  | some em => queryHistoryByEmail env.codec env.store em v.limit v.nextToken
  | none => queryRecentHistory env.codec env.store v.limit v.nextToken

/-- The history Lambda handler (getSearchHistory lines 666-762). -/
def historyHandler (env : HistEnv) : HistOutcome :=
  if env.isOptions then ⟨200, none, []⟩
  else
    match validateQueryParams env.codec env.params with
    | .error msg =>
      let b : HistBody := { success := false, error := some msg, requestId := env.requestId }
      ⟨400, some b, []⟩
    | .ok v =>
      let qt := historyQueryOf env v
      match qt.result with
      | .error msg =>
        let b : HistBody :=
          { success := false, error := some msg, requestId := env.requestId,
            duration := some env.duration }
        ⟨mapErrorToStatusCodeHist msg, some b, qt.storageCalls⟩
      | .ok r =>
        let filteredItems :=
          match v.cryptocurrency with
          | some c => filterByCryptocurrency r.items c
          | none => r.items
        let san := sanitizeItems filteredItems
        let b : HistBody :=
          { success := true, count := some san.length, limit := some v.limit,
            email := some v.email, cryptocurrency := some v.cryptocurrency,
            data := some san, nextToken := some r.nextToken,
            hasMore := some r.nextToken.isSome,
            requestId := env.requestId, duration := some env.duration }
        ⟨200, some b, qt.storageCalls⟩

/-- The client-side pagination walk over one index ordering: run the query,
feed each returned cursor back, and collect the pages in order. `fuel` bounds
the walk; any fuel above the number of pages returns every page. -/
def collectPages (codec : TokenCodec) (ordering : List HistoryItem) (limit : Nat) :
    Nat → Option String → List (List HistoryItem)
  | 0, _ => []
  | fuel + 1, tok =>
    match (runQuery codec ordering limit tok).result with
    | .error _ => []
    | .ok r =>
      match r.nextToken with
      | none => [r.items]
      | some t => r.items :: collectPages codec ordering limit fuel (some t)

/-- A concrete token codec for witnesses: a key round-trips by prefixing one
marker character, and any string not carrying the marker fails to decode. -/
def tcodec : TokenCodec where
  encode k := ⟨'T' :: k.data⟩
  decode s :=
    match s.data with
    | [] => none
    | c :: cs => if c = 'T' then some ⟨cs⟩ else none
  decode_encode k := by simp

/-- A concrete quote used by the witness scenarios. -/
def sampleQuote : PriceQuote := ⟨"bitcoin", 100, "usd", 0, 0⟩

/-- Id generator that collides with the stored row on attempt 1 and is fresh
from attempt 2 on. -/
def c1Ids : Nat → String := fun n => if n = 1 then "X" else "Y"

/-- The pre-existing history row whose id the generator repeats. -/
def c1Prior : HistoryItem := mkHistoryItem "X" 0 sampleQuote "a@b.com"

/-- The append that hits an id collision on its first conditional write. -/
def c1Trace : StoreTrace :=
  storeSearchHistory sampleQuote "a@b.com" 0 c1Ids (fun _ => none) [c1Prior]

/-- Id generator producing "A" on attempt 1 and "B" afterwards. -/
def c2Ids : Nat → String := fun n => if n = 1 then "A" else "B"

/-- Fault schedule throttling only the first put attempt. -/
def c2Faults : Nat → Option DynErrorKind :=
  fun n => if n = 1 then some .provisionedThroughputExceeded else none

/-- The append whose first attempt is throttled and whose retry succeeds. -/
def c2Trace : StoreTrace := storeSearchHistory sampleQuote "a@b.com" 0 c2Ids c2Faults []

/-- Fault schedule raising table-not-found on the first attempt. -/
def c2FaultsRnf : Nat → Option DynErrorKind :=
  fun n => if n = 1 then some .resourceNotFound else none

/-- Upstream schedule returning 503 twice, then a valid payload. -/
def c3Upstream : Nat → UpstreamResponse :=
  fun n => if n = 3 then .payload (some 100) (some (-3)) (some 7) else .status 503

/-- A cache row written at millisecond 0. -/
def c4Item : CacheItem := ⟨0, sampleQuote⟩

/-- Fetch-handler environment where fetch and store succeed and SES rejects
the message. -/
def c5Env : FetchEnv :=
  { isOptions := false, requestId := "req-5", duration := 9,
    parse := Except.ok ⟨some "bitcoin", some "a@b.com"⟩, now := 0,
    cacheRead := Except.ok none,
    upstream := fun _ => .payload (some 100) none none,
    ids := fun _ => "id1", storeFaults := fun _ => none, store := [],
    ses := Except.error ⟨"MessageRejected", ""⟩ }

/-- Fetch-handler environment with a parsed body missing the email field. -/
def c9ceEnv : FetchEnv :=
  { isOptions := false, requestId := "req-9", duration := 5,
    parse := Except.ok ⟨some "bitcoin", none⟩, now := 0,
    cacheRead := Except.ok none, upstream := fun _ => .status 503,
    ids := fun _ => "id", storeFaults := fun _ => none, store := [],
    ses := Except.ok () }

/-- History-handler environment used by the response-shape witness. -/
def c9HistEnv : HistEnv :=
  { isOptions := false, requestId := "req-9h", duration := 6,
    params := { limit := some "2" }, store := [], codec := tcodec }

/-- Query parameters carrying a token that does not decode. -/
def c7BadParams : QueryParams := { nextToken := some "X" }

/-- Query parameters carrying a well-formed token (the encoding of key
"foo"). -/
def c7GoodParams : QueryParams := { nextToken := some "Tfoo" }

/-- A history row for the concrete query scenarios. -/
def mkRow (id : String) (ts : Int) (crypto : String) : HistoryItem :=
  mkHistoryItem id ts ⟨crypto, 1, "usd", 0, 0⟩ "a@b.com"

/-- Three stored rows with distinct ids and distinct timestamps. -/
def c6Store : List HistoryItem :=
  [mkRow "a" 1 "bitcoin", mkRow "b" 3 "ethereum", mkRow "c" 2 "bitcoin"]

/-- History-handler environment for the post-filter scenario: page size 1,
asset filter bitcoin, and the most recent stored row is an ethereum one. -/
def c10Env : HistEnv :=
  { isOptions := false, requestId := "req-10", duration := 7,
    params := { limit := some "1", cryptocurrency := some "bitcoin" },
    store := c6Store, codec := tcodec }

/-- The validated form of c10Env's parameters. -/
def c10Validated : ValidatedQuery := { limit := 1, cryptocurrency := some "bitcoin" }

/-- History-handler environment whose token was tampered with. -/
def c7Env : HistEnv :=
  { isOptions := false, requestId := "req-7", duration := 3,
    params := c7BadParams, store := c6Store, codec := tcodec }

/-- History-handler environment carrying the well-formed token. -/
def c7GoodEnv : HistEnv :=
  { isOptions := false, requestId := "req-7g", duration := 3,
    params := c7GoodParams, store := c6Store, codec := tcodec }

/-! Helper lemmas. -/

/-- The retry loop makes at least one upstream attempt whenever it has fuel. -/
theorem fetchLoop_calls_pos (cryptoId : String) (upstream : Nat → UpstreamResponse)
    (attempt fuel : Nat) :
    1 ≤ (fetchLoop cryptoId upstream attempt (fuel + 1)).upstreamCalls := by
  simp only [fetchLoop]
  split
  · simp
  · split
    · simp
    · simp

/-- The fetch Lambda's error mapper never yields 400. -/
theorem mapErrorToStatusCode_ne_400 (msg : String) : mapErrorToStatusCode msg ≠ 400 := by
  unfold mapErrorToStatusCode
  split_ifs <;> decide

/-- The query Lambda's error mapper never yields 400. -/
theorem mapErrorToStatusCodeHist_ne_400 (msg : String) : mapErrorToStatusCodeHist msg ≠ 400 := by
  unfold mapErrorToStatusCodeHist
  split_ifs <;> decide

/-- A successful conditional put prepends the new item and keeps the rest. -/
theorem putConditional_ok {store : List HistoryItem} {item : HistoryItem}
    {fault : Option DynErrorKind} {ns : List HistoryItem}
    (h : putConditional store item fault = .ok ns) : ns = item :: store := by
  unfold putConditional at h
  rcases fault with _ | e
  · by_cases hb : (store.any fun r => r.id = item.id) = true
    · rw [if_pos hb] at h; cases h
    · rw [if_neg hb] at h; cases h; rfl
  · cases h

/-- No run of the store loop ever removes or replaces an existing row. -/
theorem storeGo_mem_mono (quote : PriceQuote) (email : String) (now : Int)
    (ids : Nat → String) (faults : Nat → Option DynErrorKind) :
    ∀ fuel attempt store r, r ∈ store →
      r ∈ (storeGo quote email now ids faults store attempt fuel).store := by
  intro fuel
  induction fuel with
  | zero => intro attempt store r h; simpa [storeGo] using h
  | succ f ih =>
    intro attempt store r h
    simp only [storeGo]
    split
    · rename_i ns hpc
      have h2 := putConditional_ok hpc
      subst h2
      exact List.mem_cons_of_mem _ h
    · split
      · exact ih (attempt + 1) store r h
      · split
        · exact h
        · exact h

/-- A successful store leaves the produced item among the rows. -/
theorem storeGo_ok_mem (quote : PriceQuote) (email : String) (now : Int)
    (ids : Nat → String) (faults : Nat → Option DynErrorKind) :
    ∀ fuel attempt store item,
      (storeGo quote email now ids faults store attempt fuel).result = .ok item →
      item ∈ (storeGo quote email now ids faults store attempt fuel).store := by
  intro fuel
  induction fuel with
  | zero => intro attempt store item h; simp [storeGo] at h
  | succ f ih =>
    intro attempt store item h
    simp only [storeGo] at h ⊢
    split at h <;> rename_i hpc
    · have h2 := putConditional_ok hpc
      subst h2
      simp only [] at h ⊢
      cases h
      simp
    · revert h
      split
      · intro h
        exact ih (attempt + 1) store item h
      · split
        · intro h; cases h
        · intro h; cases h

/-- A fault injected into the put surfaces as that error. -/
theorem putConditional_fault (store : List HistoryItem) (item : HistoryItem)
    (e : DynErrorKind) : putConditional store item (some e) = .error e := rfl

/-- A healthy put with a fresh id inserts the item. -/
theorem putConditional_free (store : List HistoryItem) (item : HistoryItem)
    (h : (store.any fun r => r.id = item.id) = false) :
    putConditional store item none = .ok (item :: store) := by
  unfold putConditional
  rw [if_neg (by simp [h])]

/-- One store-loop step whose put succeeds. -/
theorem storeGo_step_ok (quote : PriceQuote) (email : String) (now : Int)
    (ids : Nat → String) (faults : Nat → Option DynErrorKind) (store : List HistoryItem)
    (attempt fuel : Nat) (ns : List HistoryItem) (hf : 1 ≤ fuel)
    (h : putConditional store (mkHistoryItem (ids attempt) now quote email) (faults attempt) =
      .ok ns) :
    storeGo quote email now ids faults store attempt fuel =
      ⟨.ok (mkHistoryItem (ids attempt) now quote email), ns, [], 1⟩ := by
  obtain ⟨f, rfl⟩ : ∃ f, fuel = f + 1 := ⟨fuel - 1, by omega⟩
  simp only [storeGo, h]

/-- One store-loop step rejected by throughput below the attempt cap. -/
theorem storeGo_step_throttle (quote : PriceQuote) (email : String) (now : Int)
    (ids : Nat → String) (faults : Nat → Option DynErrorKind) (store : List HistoryItem)
    (attempt fuel : Nat) (hf : 1 ≤ fuel)
    (h : putConditional store (mkHistoryItem (ids attempt) now quote email) (faults attempt) =
      .error .provisionedThroughputExceeded)
    (ha : attempt < GCP.MAX_RETRIES) :
    storeGo quote email now ids faults store attempt fuel =
      ⟨(storeGo quote email now ids faults store (attempt + 1) (fuel - 1)).result,
        (storeGo quote email now ids faults store (attempt + 1) (fuel - 1)).store,
        GCP.BACKOFF_BASE * 2 ^ (attempt - 1) ::
          (storeGo quote email now ids faults store (attempt + 1) (fuel - 1)).sleeps,
        (storeGo quote email now ids faults store (attempt + 1) (fuel - 1)).attempts + 1⟩ := by
  obtain ⟨f, rfl⟩ : ∃ f, fuel = f + 1 := ⟨fuel - 1, by omega⟩
  simp only [storeGo, h, Nat.add_sub_cancel]
  simp [ha]

/-- One store-loop step rejected by throughput at the attempt cap. -/
theorem storeGo_step_throttle_exhausted (quote : PriceQuote) (email : String) (now : Int)
    (ids : Nat → String) (faults : Nat → Option DynErrorKind) (store : List HistoryItem)
    (attempt fuel : Nat) (hf : 1 ≤ fuel)
    (h : putConditional store (mkHistoryItem (ids attempt) now quote email) (faults attempt) =
      .error .provisionedThroughputExceeded)
    (ha : ¬ attempt < GCP.MAX_RETRIES) :
    storeGo quote email now ids faults store attempt fuel =
      ⟨.error "Failed to store search history: ProvisionedThroughputExceededException",
        store, [], 1⟩ := by
  obtain ⟨f, rfl⟩ : ∃ f, fuel = f + 1 := ⟨fuel - 1, by omega⟩
  simp only [storeGo, h]
  rw [if_neg (fun hc => ha hc.2), if_neg (by decide)]
  rfl

/-- One store-loop step rejected by table-not-found. -/
theorem storeGo_step_rnf (quote : PriceQuote) (email : String) (now : Int)
    (ids : Nat → String) (faults : Nat → Option DynErrorKind) (store : List HistoryItem)
    (attempt fuel : Nat) (hf : 1 ≤ fuel)
    (h : putConditional store (mkHistoryItem (ids attempt) now quote email) (faults attempt) =
      .error .resourceNotFound) :
    storeGo quote email now ids faults store attempt fuel =
      ⟨.error GCP.TABLE_NOT_FOUND, store, [], 1⟩ := by
  obtain ⟨f, rfl⟩ : ∃ f, fuel = f + 1 := ⟨fuel - 1, by omega⟩
  simp only [storeGo, h]
  simp

/-! Claim theorems. -/

/-- C8 (code bug): the claim says a failure is retried iff it is a timeout,
rate-limit, network-unreachable or upstream-5xx error, but the substring
classifier misses the code's own network-unreachable (ENOTFOUND) and
socket-timeout (ETIMEDOUT) messages: both are classified non-retryable, and a
fetch hitting ENOTFOUND aborts after exactly one upstream attempt with no
backoff sleep. -/
theorem c8_network_unreachable_not_retried :
    isRetryableError GCP.NETWORK_UNREACHABLE = false ∧
    isRetryableError GCP.CONNECTION_TIMEOUT = false ∧
    fetchCryptoPrice "bitcoin" (.netErr "ENOTFOUND" "getaddrinfo") =
      .error GCP.NETWORK_UNREACHABLE ∧
    (fetchCryptoPriceWithRetry "bitcoin" 0 (Except.ok none)
        (fun _ => .netErr "ENOTFOUND" "getaddrinfo")).upstreamCalls = 1 ∧
    (fetchCryptoPriceWithRetry "bitcoin" 0 (Except.ok none)
        (fun _ => .netErr "ENOTFOUND" "getaddrinfo")).sleeps = [] ∧
    exceptIsOk (fetchCryptoPriceWithRetry "bitcoin" 0 (Except.ok none)
        (fun _ => .netErr "ENOTFOUND" "getaddrinfo")).result = false := by
  refine ⟨by decide, by decide, rfl, rfl, rfl, rfl⟩

/-- C1 counterexample: with a stored row of id X, a generator yielding X on
attempt 1 and the fresh id Y afterwards, and a healthy table, the append is
rejected by the conditional write and is NOT retried — a single attempt, no
sleep, a failed result, the store unchanged — although a retry with the
fresh id would have succeeded. -/
theorem c1_counterexample :
    c1Trace.attempts = 1 ∧ c1Trace.sleeps = [] ∧
    exceptIsOk c1Trace.result = false ∧ c1Trace.store = [c1Prior] ∧
    c1Ids 2 = "Y" ∧ ([c1Prior].any fun r => r.id = c1Ids 2) = false := by
  refine ⟨rfl, rfl, rfl, rfl, rfl, by decide⟩

/-- C1 amended: an append whose conditional write is rejected because the
generated id already exists is not retried — it makes exactly one attempt,
sleeps never, fails, and leaves the store unchanged; and no run of the store
loop ever removes or replaces an existing record (the id-uniqueness
conditional write itself is what rejects the colliding write). -/
theorem c1_amended_collision_fails_without_retry (quote : PriceQuote) (email : String)
    (now : Int) (ids : Nat → String) (faults : Nat → Option DynErrorKind)
    (store : List HistoryItem)
    (hf : faults 1 = none)
    (hc : (store.any fun r => r.id = ids 1) = true) :
    (storeSearchHistory quote email now ids faults store).attempts = 1 ∧
    (storeSearchHistory quote email now ids faults store).sleeps = [] ∧
    exceptIsOk (storeSearchHistory quote email now ids faults store).result = false ∧
    (storeSearchHistory quote email now ids faults store).store = store ∧
    ∀ (ids2 : Nat → String) (faults2 : Nat → Option DynErrorKind),
      ∀ r ∈ store, r ∈ (storeSearchHistory quote email now ids2 faults2 store).store := by
  have hput : putConditional store (mkHistoryItem (ids 1) now quote email) (faults 1) =
      .error .conditionalCheckFailed := by
    rw [hf]
    unfold putConditional
    rw [if_pos (by simpa [mkHistoryItem] using hc)]
  refine ⟨?_, ?_, ?_, ?_, ?_⟩ <;>
    first
      | · intro ids2 faults2 r hr
          exact storeGo_mem_mono quote email now ids2 faults2 GCP.MAX_RETRIES 1 store r hr
      | · simp [storeSearchHistory, storeGo, hput, GCP.MAX_RETRIES, exceptIsOk]

/-- C2 counterexample: a throughput-throttled first attempt (generated id A)
is retried and the retry succeeds, but the stored record carries the freshly
generated id B, not the id A of the rejected attempt — the claim's "same
record id" is false. -/
theorem c2_counterexample :
    exceptGet c2Trace.result = some (mkHistoryItem "B" 0 sampleQuote "a@b.com") ∧
    (mkHistoryItem "B" 0 sampleQuote "a@b.com").id ≠ c2Ids 1 ∧
    c2Trace.sleeps = [1000] ∧ c2Trace.attempts = 2 := by
  refine ⟨rfl, by decide, rfl, rfl⟩

/-- C2 amended: a throughput-limited append is retried up to 3 total attempts
with backoff 1000ms * 2^(attempt-1) between attempts, but each retry
regenerates a fresh record id rather than reusing the rejected attempt's id;
a table-not-found rejection is never retried and fails immediately. -/
theorem c2_amended_throughput_retry_fresh_id (quote : PriceQuote) (email : String)
    (now : Int) (ids : Nat → String) (store : List HistoryItem) :
    (∀ faults : Nat → Option DynErrorKind,
      faults 1 = some DynErrorKind.provisionedThroughputExceeded → faults 2 = none →
      (store.any fun r => r.id = ids 2) = false →
      storeSearchHistory quote email now ids faults store =
        ⟨Except.ok (mkHistoryItem (ids 2) now quote email),
          mkHistoryItem (ids 2) now quote email :: store, [1000], 2⟩) ∧
    (storeSearchHistory quote email now ids
        (fun _ => some DynErrorKind.provisionedThroughputExceeded) store =
      ⟨Except.error "Failed to store search history: ProvisionedThroughputExceededException",
        store, [1000, 2000], 3⟩) ∧
    (∀ faults : Nat → Option DynErrorKind,
      faults 1 = some DynErrorKind.resourceNotFound →
      storeSearchHistory quote email now ids faults store =
        ⟨Except.error GCP.TABLE_NOT_FOUND, store, [], 1⟩) := by
  refine ⟨?_, ?_, ?_⟩
  · intro faults h1 h2 hfree
    have hput1 : putConditional store (mkHistoryItem (ids 1) now quote email) (faults 1) =
        .error .provisionedThroughputExceeded := by rw [h1]; rfl
    have hput2 : putConditional store (mkHistoryItem (ids 2) now quote email) (faults 2) =
        .ok (mkHistoryItem (ids 2) now quote email :: store) := by
      rw [h2]
      exact putConditional_free _ _ (by simpa [mkHistoryItem] using hfree)
    unfold storeSearchHistory
    rw [storeGo_step_throttle quote email now ids faults store 1 GCP.MAX_RETRIES (by decide)
        hput1 (by decide),
      storeGo_step_ok quote email now ids faults store 2 (GCP.MAX_RETRIES - 1)
        (mkHistoryItem (ids 2) now quote email :: store) (by decide) hput2]
    norm_num [GCP.BACKOFF_BASE]
  · simp [storeSearchHistory, storeGo, putConditional, GCP.MAX_RETRIES, GCP.BACKOFF_BASE,
      dynErrorName]
  · intro faults h1
    simp [storeSearchHistory, storeGo, h1, putConditional, GCP.MAX_RETRIES]

/-- One fetch-loop step whose upstream attempt succeeds. -/
theorem fetchLoop_step_ok (cryptoId : String) (upstream : Nat → UpstreamResponse)
    (attempt fuel : Nat) (q : PriceQuote) (hf : 1 ≤ fuel)
    (h : fetchCryptoPrice cryptoId (upstream attempt) = .ok q) :
    fetchLoop cryptoId upstream attempt fuel = ⟨.ok q, 1, [], some q⟩ := by
  obtain ⟨f, rfl⟩ : ∃ f, fuel = f + 1 := ⟨fuel - 1, by omega⟩
  simp only [fetchLoop, h]

/-- One fetch-loop step that fails retryably below the attempt cap. -/
theorem fetchLoop_step_retry (cryptoId : String) (upstream : Nat → UpstreamResponse)
    (attempt fuel : Nat) (e : String) (hf : 1 ≤ fuel)
    (h : fetchCryptoPrice cryptoId (upstream attempt) = .error e)
    (hr : isRetryableError e = true) (ha : attempt ≠ GCP.MAX_RETRIES) :
    fetchLoop cryptoId upstream attempt fuel =
      ⟨(fetchLoop cryptoId upstream (attempt + 1) (fuel - 1)).result,
        (fetchLoop cryptoId upstream (attempt + 1) (fuel - 1)).upstreamCalls + 1,
        GCP.BACKOFF_BASE * 2 ^ (attempt - 1) ::
          (fetchLoop cryptoId upstream (attempt + 1) (fuel - 1)).sleeps,
        (fetchLoop cryptoId upstream (attempt + 1) (fuel - 1)).cacheWrite⟩ := by
  obtain ⟨f, rfl⟩ : ∃ f, fuel = f + 1 := ⟨fuel - 1, by omega⟩
  simp only [fetchLoop, h, Nat.add_sub_cancel]
  simp [hr, ha]

/-- One fetch-loop step that stops: a non-retryable failure, or the final
attempt failing. -/
theorem fetchLoop_step_halt (cryptoId : String) (upstream : Nat → UpstreamResponse)
    (attempt fuel : Nat) (e : String) (hf : 1 ≤ fuel)
    (h : fetchCryptoPrice cryptoId (upstream attempt) = .error e)
    (hstop : isRetryableError e = false ∨ attempt = GCP.MAX_RETRIES) :
    fetchLoop cryptoId upstream attempt fuel =
      ⟨.error ("Failed to fetch price after 3 attempts: " ++ e), 1, [], none⟩ := by
  obtain ⟨f, rfl⟩ : ∃ f, fuel = f + 1 := ⟨fuel - 1, by omega⟩
  simp only [fetchLoop, h]
  rcases hstop with hs | hs <;> simp [hs]

/-- C9 counterexample: a parsed request missing the email field yields the
400 missing-fields response, whose body carries the request id but no
duration field, refuting "every outcome carries both". -/
theorem c9_counterexample :
    c9ceEnv.isOptions = false ∧
    (cryptoPriceHandler c9ceEnv).statusCode = 400 ∧
    ((cryptoPriceHandler c9ceEnv).body.map fun b => b.requestId) = some "req-9" ∧
    ((cryptoPriceHandler c9ceEnv).body.map fun b => b.duration) = some none := by
  refine ⟨rfl, rfl, rfl, rfl⟩

/-- C3: on a cache miss with the upstream returning 503, 503, then a valid
payload, the fetch succeeds with the third attempt's quote, makes exactly
three upstream attempts, sleeps exactly twice — 1000ms then 2000ms, summing
to 3000ms — and never after the final attempt, and writes the quote through
to the cache. -/
theorem c3_two_503_then_success (cryptoId : String) (now : Int)
    (read : Except Unit (Option CacheItem)) (upstream : Nat → UpstreamResponse)
    (usd : Int) (chg cap : Option Int)
    (hmiss : getCachedPrice now read = none)
    (h1 : upstream 1 = .status 503) (h2 : upstream 2 = .status 503)
    (h3 : upstream 3 = .payload (some usd) chg cap) (hp : 0 ≤ usd) :
    fetchCryptoPriceWithRetry cryptoId now read upstream =
      ⟨Except.ok ⟨cryptoId, usd, "usd", chg.getD 0, cap.getD 0⟩, 3, [1000, 2000],
        some ⟨cryptoId, usd, "usd", chg.getD 0, cap.getD 0⟩⟩ ∧
    ([1000, 2000] : List Nat).sum = 3000 := by
  refine ⟨?_, by decide⟩
  have e1 : fetchCryptoPrice cryptoId (upstream 1) = .error GCP.API_UNAVAILABLE := by
    rw [h1]; rfl
  have e2 : fetchCryptoPrice cryptoId (upstream 2) = .error GCP.API_UNAVAILABLE := by
    rw [h2]; rfl
  have e3 : fetchCryptoPrice cryptoId (upstream 3) =
      .ok ⟨cryptoId, usd, "usd", chg.getD 0, cap.getD 0⟩ := by
    rw [h3]
    show (if usd < 0 then Except.error GCP.INVALID_PRICE_DATA
        else Except.ok (⟨cryptoId, usd, "usd", chg.getD 0, cap.getD 0⟩ : PriceQuote)) =
      Except.ok ⟨cryptoId, usd, "usd", chg.getD 0, cap.getD 0⟩
    rw [if_neg (by omega)]
  have hr : isRetryableError GCP.API_UNAVAILABLE = true := by decide
  unfold fetchCryptoPriceWithRetry
  rw [hmiss]
  show fetchLoop cryptoId upstream 1 GCP.MAX_RETRIES = _
  rw [fetchLoop_step_retry cryptoId upstream 1 GCP.MAX_RETRIES GCP.API_UNAVAILABLE
      (by decide) e1 hr (by decide),
    fetchLoop_step_retry cryptoId upstream 2 (GCP.MAX_RETRIES - 1) GCP.API_UNAVAILABLE
      (by decide) e2 hr (by decide),
    fetchLoop_step_ok cryptoId upstream 3 (GCP.MAX_RETRIES - 1 - 1) _ (by decide) e3]
  norm_num [GCP.BACKOFF_BASE]

/-- C3 witness at a concrete schedule. -/
theorem c3_witness :
    fetchCryptoPriceWithRetry "bitcoin" 0 (Except.ok none) c3Upstream =
      ⟨Except.ok ⟨"bitcoin", 100, "usd", -3, 7⟩, 3, [1000, 2000],
        some ⟨"bitcoin", 100, "usd", -3, 7⟩⟩ ∧
    ([1000, 2000] : List Nat).sum = 3000 :=
  c3_two_503_then_success "bitcoin" 0 (Except.ok none) c3Upstream 100 (some (-3)) (some 7)
    rfl rfl rfl rfl (by decide)

/-- C4: a cache entry younger than 60 seconds short-circuits the fetch — no
upstream call, no sleep, and the returned quote is exactly the cached one;
an entry aged 60 seconds or more is treated as absent and the upstream loop
runs, making at least one upstream call. -/
theorem c4_cache_freshness_window (cryptoId : String) (now : Int) (item : CacheItem)
    (upstream : Nat → UpstreamResponse) :
    (now - item.timestamp < GCP.CACHE_TTL →
      fetchCryptoPriceWithRetry cryptoId now (Except.ok (some item)) upstream =
        ⟨Except.ok item.priceData, 0, [], none⟩) ∧
    (GCP.CACHE_TTL ≤ now - item.timestamp →
      fetchCryptoPriceWithRetry cryptoId now (Except.ok (some item)) upstream =
        fetchLoop cryptoId upstream 1 GCP.MAX_RETRIES ∧
      1 ≤ (fetchLoop cryptoId upstream 1 GCP.MAX_RETRIES).upstreamCalls) := by
  constructor
  · intro h
    have hc : getCachedPrice now (Except.ok (some item)) = some item.priceData := by
      show (if now - item.timestamp < GCP.CACHE_TTL then some item.priceData else none) = _
      rw [if_pos h]
    unfold fetchCryptoPriceWithRetry
    rw [hc]
  · intro h
    refine ⟨?_, fetchLoop_calls_pos cryptoId upstream 1 2⟩
    have hc : getCachedPrice now (Except.ok (some item)) = none := by
      show (if now - item.timestamp < GCP.CACHE_TTL then some item.priceData else none) = _
      rw [if_neg (by omega)]
    unfold fetchCryptoPriceWithRetry
    rw [hc]

/-- C4 witness: hit at age 59999ms, miss at age 60000ms. -/
theorem c4_witness :
    (59999 - c4Item.timestamp < GCP.CACHE_TTL ∧
      fetchCryptoPriceWithRetry "bitcoin" 59999 (Except.ok (some c4Item))
          (fun _ => .status 404) =
        ⟨Except.ok c4Item.priceData, 0, [], none⟩) ∧
    (GCP.CACHE_TTL ≤ 60000 - c4Item.timestamp ∧
      fetchCryptoPriceWithRetry "bitcoin" 60000 (Except.ok (some c4Item))
          (fun _ => .status 404) =
        fetchLoop "bitcoin" (fun _ => .status 404) 1 GCP.MAX_RETRIES ∧
      1 ≤ (fetchLoop "bitcoin" (fun _ => .status 404) 1 GCP.MAX_RETRIES).upstreamCalls) :=
  ⟨⟨by decide,
    (c4_cache_freshness_window "bitcoin" 59999 c4Item (fun _ => .status 404)).1 (by decide)⟩,
   ⟨by decide,
    (c4_cache_freshness_window "bitcoin" 60000 c4Item (fun _ => .status 404)).2 (by decide)⟩⟩

/-- C5: when the fetch and the history append both succeed and the
notification then fails, the handler returns the 207 partial-success
response whose data carries the persisted record's id and timestamp, the
table rows stay exactly the post-append rows — the persisted record among
them — and the cache write-through is untouched: nothing is rolled back or
re-attempted. -/
theorem c5_notification_failure_partial_success (env : FetchEnv) (body : RequestBody)
    (crypto email : String) (quote : PriceQuote) (item : HistoryItem) (err : SesErr)
    (h0 : env.isOptions = false)
    (h1 : env.parse = .ok body)
    (h2 : truthyOpt body.cryptocurrency = true)
    (h3 : truthyOpt body.email = true)
    (h4 : validateInput body.cryptocurrency body.email = .ok (crypto, email))
    (h5 : (fetchCryptoPriceWithRetry crypto env.now env.cacheRead env.upstream).result =
      .ok quote)
    (h6 : (storeSearchHistory quote email env.now env.ids env.storeFaults env.store).result =
      .ok item)
    (h7 : env.ses = .error err) :
    cryptoPriceHandler env =
      ⟨207, some { success := true,
                   warning := some "Email delivery failed, but data was saved successfully",
                   data := some ⟨item.id, quote, item.timestamp⟩,
                   requestId := env.requestId, duration := some env.duration },
        (storeSearchHistory quote email env.now env.ids env.storeFaults env.store).store,
        (fetchCryptoPriceWithRetry crypto env.now env.cacheRead env.upstream).cacheWrite⟩ ∧
    item ∈ (storeSearchHistory quote email env.now env.ids env.storeFaults env.store).store := by
  refine ⟨?_, storeGo_ok_mem quote email env.now env.ids env.storeFaults GCP.MAX_RETRIES 1
    env.store item h6⟩
  simp [cryptoPriceHandler, h0, h1, h2, h3, h4, h5, h6, h7, sendEmailNotification]

/-- C5 witness at a concrete environment. -/
theorem c5_witness :
    cryptoPriceHandler c5Env =
      ⟨207, some { success := true,
                   warning := some "Email delivery failed, but data was saved successfully",
                   data := some ⟨"id1", sampleQuote, 0⟩,
                   requestId := "req-5", duration := some 9 },
        [mkHistoryItem "id1" 0 sampleQuote "a@b.com"], some sampleQuote⟩ ∧
    mkHistoryItem "id1" 0 sampleQuote "a@b.com" ∈ [mkHistoryItem "id1" 0 sampleQuote "a@b.com"] :=
  c5_notification_failure_partial_success c5Env ⟨some "bitcoin", some "a@b.com"⟩
    "bitcoin" "a@b.com" sampleQuote (mkHistoryItem "id1" 0 sampleQuote "a@b.com")
    ⟨"MessageRejected", ""⟩ rfl rfl rfl rfl rfl rfl rfl rfl

/-- Stepping past the row carrying the key: the head row itself. -/
theorem afterKey_cons_self (y : HistoryItem) (ys : List HistoryItem) :
    afterKey (y :: ys) (some y.id) = ys := by
  simp only [afterKey]
  rw [List.dropWhile_cons]
  simp

/-- Stepping past the row carrying the key skips exactly the rows before it,
provided no earlier row carries the same key. -/
theorem afterKey_append (xs ys : List HistoryItem) (y : HistoryItem)
    (h : ∀ x ∈ xs, x.id ≠ y.id) :
    afterKey (xs ++ y :: ys) (some y.id) = ys := by
  induction xs with
  | nil => simpa using afterKey_cons_self y ys
  | cons a as ih =>
    have ha : a.id ≠ y.id := h a (by simp)
    have ih2 := ih fun x hx => h x (List.mem_cons_of_mem _ hx)
    rw [List.cons_append]
    simp only [afterKey] at ih2 ⊢
    rw [List.dropWhile_cons, if_pos (by simpa using ha)]
    exact ih2

/-- Invariant of the pagination walk: starting from a cursor that encodes the
position right after `pre` in an ordering with pairwise-distinct row ids, the
collected pages flatten to exactly the remaining rows, each page holding at
most `limit` rows. -/
theorem collectPages_go (codec : TokenCodec) (ordering : List HistoryItem) (limit : Nat)
    (hlim : 1 ≤ limit) (hnd : (ordering.map fun r => r.id).Nodup) :
    ∀ fuel pre rest tok, ordering = pre ++ rest → rest.length < fuel →
      (tok = none ∧ pre = [] ∨ ∃ y ys, pre = ys ++ [y] ∧ tok = some (codec.encode y.id)) →
      (collectPages codec ordering limit fuel tok).flatten = rest ∧
      ∀ pg ∈ collectPages codec ordering limit fuel tok, pg.length ≤ limit := by
  intro fuel
  induction fuel with
  | zero => intro pre rest tok _ hlt _; omega
  | succ f ih =>
    intro pre rest tok hsplit hlt htok
    have hrq : ∃ sc, runQuery codec ordering limit tok =
        ⟨.ok ⟨rest.take limit,
          (if limit < rest.length then (rest.take limit).getLast?.map fun r => r.id
            else none).map codec.encode⟩, sc⟩ := by
      rcases htok with ⟨h1, h2⟩ | ⟨y, ys, h2, h1⟩
      · subst h1 h2
        refine ⟨[none], ?_⟩
        have ho : ordering = rest := by simpa using hsplit
        simp only [runQuery, dynamoQueryPage, afterKey, ho]
      · subst h1 h2
        refine ⟨[some y.id], ?_⟩
        have hyid : ∀ x ∈ ys, x.id ≠ y.id := by
          have hnd2 : (List.map (fun r => r.id) ys).Disjoint
              (List.map (fun r => r.id) (y :: rest)) := by
            have hnd3 := hnd
            rw [hsplit, List.append_assoc, List.singleton_append, List.map_append] at hnd3
            exact (List.nodup_append.mp hnd3).2.2
          intro x hx hxy
          exact hnd2 (List.mem_map_of_mem _ hx) (by simp [hxy.symm])
        have hax : afterKey ordering (some y.id) = rest := by
          rw [hsplit, List.append_assoc, List.singleton_append]
          exact afterKey_append ys rest y hyid
        simp only [runQuery, codec.decode_encode, dynamoQueryPage, hax]
    obtain ⟨sc, hrq⟩ := hrq
    by_cases hmore : limit < rest.length
    · -- a further page exists: the cursor encodes the page's last row id
      have hpne : rest.take limit ≠ [] := by
        have hl : (rest.take limit).length = limit := by
          rw [List.length_take]; omega
        intro hc
        rw [hc] at hl
        simp at hl
        omega
      have hlast : (rest.take limit).getLast? =
          some ((rest.take limit).getLast hpne) :=
        List.getLast?_eq_getLast_of_ne_nil hpne
      rw [if_pos hmore, hlast] at hrq
      simp only [collectPages, hrq, Option.map_some']
      have ihx := ih (pre ++ rest.take limit) (rest.drop limit)
        (some (codec.encode ((rest.take limit).getLast hpne).id))
        (by rw [hsplit, List.append_assoc, List.take_append_drop])
        (by rw [List.length_drop]; omega)
        (Or.inr ⟨(rest.take limit).getLast hpne, pre ++ (rest.take limit).dropLast,
          by rw [List.append_assoc, List.dropLast_append_getLast hpne], rfl⟩)
      refine ⟨?_, ?_⟩
      · simp only [List.flatten_cons, ihx.1]
        exact List.take_append_drop limit rest
      · intro pg hpg
        rcases List.mem_cons.mp hpg with hpg | hpg
        · subst hpg
          rw [List.length_take]
          omega
        · exact ihx.2 pg hpg
    · -- the final page: no cursor, the page is the whole remainder
      rw [if_neg hmore] at hrq
      simp only [collectPages, hrq, Option.map_none']
      rw [List.take_of_length_le (by omega)]
      refine ⟨by simp, ?_⟩
      intro pg hpg
      simp at hpg
      subst hpg
      omega

/-- C6: for every stored set of rows (with the distinct-id store invariant)
and every positive limit, walking either history ordering — by recipient or
by recency — and feeding every returned cursor back yields pages that
concatenate to exactly the single full scan of that ordering, with no row
repeated (flattened ids stay nodup) and no row skipped; every page holds at
most `limit` rows, and the walk ends exactly when no cursor is returned.
Both query functions are the shared page query over their ordering. -/
theorem c6_pagination_no_overlap_no_skip (codec : TokenCodec) (store : List HistoryItem)
    (email : String) (limit : Nat) (hlim : 1 ≤ limit)
    (h1 : ((emailOrdering store email).map fun r => r.id).Nodup)
    (h2 : ((recentOrdering store).map fun r => r.id).Nodup) :
    (collectPages codec (emailOrdering store email) limit
        ((emailOrdering store email).length + 1) none).flatten =
      emailOrdering store email ∧
    (∀ pg ∈ collectPages codec (emailOrdering store email) limit
        ((emailOrdering store email).length + 1) none, pg.length ≤ limit) ∧
    ((collectPages codec (emailOrdering store email) limit
        ((emailOrdering store email).length + 1) none).flatten.map fun r => r.id).Nodup ∧
    (collectPages codec (recentOrdering store) limit
        ((recentOrdering store).length + 1) none).flatten = recentOrdering store ∧
    (∀ pg ∈ collectPages codec (recentOrdering store) limit
        ((recentOrdering store).length + 1) none, pg.length ≤ limit) ∧
    ((collectPages codec (recentOrdering store) limit
        ((recentOrdering store).length + 1) none).flatten.map fun r => r.id).Nodup ∧
    (∀ tok, queryHistoryByEmail codec store email limit tok =
      runQuery codec (emailOrdering store email) limit tok) ∧
    (∀ tok, queryRecentHistory codec store limit tok =
      runQuery codec (recentOrdering store) limit tok) := by
  have he := collectPages_go codec (emailOrdering store email) limit hlim h1
    ((emailOrdering store email).length + 1) [] (emailOrdering store email) none
    (by simp) (by omega) (Or.inl ⟨rfl, rfl⟩)
  have hr := collectPages_go codec (recentOrdering store) limit hlim h2
    ((recentOrdering store).length + 1) [] (recentOrdering store) none
    (by simp) (by omega) (Or.inl ⟨rfl, rfl⟩)
  exact ⟨he.1, he.2, by rw [he.1]; exact h1, hr.1, hr.2, by rw [hr.1]; exact h2,
    fun _ => rfl, fun _ => rfl⟩

/-- C6 witness at a concrete store and limit 1. -/
theorem c6_witness :
    (collectPages tcodec (emailOrdering c6Store "a@b.com") 1
        ((emailOrdering c6Store "a@b.com").length + 1) none).flatten =
      emailOrdering c6Store "a@b.com" ∧
    (∀ pg ∈ collectPages tcodec (emailOrdering c6Store "a@b.com") 1
        ((emailOrdering c6Store "a@b.com").length + 1) none, pg.length ≤ 1) ∧
    ((collectPages tcodec (emailOrdering c6Store "a@b.com") 1
        ((emailOrdering c6Store "a@b.com").length + 1) none).flatten.map
          fun r => r.id).Nodup ∧
    (collectPages tcodec (recentOrdering c6Store) 1
        ((recentOrdering c6Store).length + 1) none).flatten = recentOrdering c6Store ∧
    (∀ pg ∈ collectPages tcodec (recentOrdering c6Store) 1
        ((recentOrdering c6Store).length + 1) none, pg.length ≤ 1) ∧
    ((collectPages tcodec (recentOrdering c6Store) 1
        ((recentOrdering c6Store).length + 1) none).flatten.map fun r => r.id).Nodup ∧
    (∀ tok, queryHistoryByEmail tcodec c6Store "a@b.com" 1 tok =
      runQuery tcodec (emailOrdering c6Store "a@b.com") 1 tok) ∧
    (∀ tok, queryRecentHistory tcodec c6Store 1 tok =
      runQuery tcodec (recentOrdering c6Store) 1 tok) :=
  c6_pagination_no_overlap_no_skip tcodec c6Store "a@b.com" 1 (by decide)
    (by decide) (by decide)

/-- C10: when an asset filter is present, the in-memory post-filter runs on
the page already cut to the storage limit: the success response's count and
data are exactly the sanitized post-filter page — the count never counts
matches beyond the page — while nextToken and hasMore come from the
storage page alone. At the concrete environment c10Env this yields a page
with zero matching records, count 0, yet hasMore true and a non-null
nextToken. -/
theorem c10_post_filter_after_page_limit (env : HistEnv) (v : ValidatedQuery) (c : String)
    (r : QueryResult)
    (h0 : env.isOptions = false)
    (hv : validateQueryParams env.codec env.params = .ok v)
    (hc : v.cryptocurrency = some c)
    (hq : (historyQueryOf env v).result = .ok r) :
    (historyHandler env =
      ⟨200, some { success := true,
                   count := some (sanitizeItems (filterByCryptocurrency r.items c)).length,
                   limit := some v.limit, email := some v.email,
                   cryptocurrency := some (some c),
                   data := some (sanitizeItems (filterByCryptocurrency r.items c)),
                   nextToken := some r.nextToken, hasMore := some r.nextToken.isSome,
                   requestId := env.requestId, duration := some env.duration },
        (historyQueryOf env v).storageCalls⟩) ∧
    (sanitizeItems (filterByCryptocurrency r.items c)).length =
      (filterByCryptocurrency r.items c).length ∧
    (historyHandler c10Env).statusCode = 200 ∧
    ((historyHandler c10Env).body.map fun b => b.count) = some (some 0) ∧
    ((historyHandler c10Env).body.map fun b => b.data) = some (some []) ∧
    ((historyHandler c10Env).body.map fun b => b.hasMore) = some (some true) ∧
    ((historyHandler c10Env).body.map fun b => b.nextToken) = some (some (some "Tb")) := by
  refine ⟨?_, by simp [sanitizeItems], rfl, rfl, rfl, rfl, rfl⟩
  simp [historyHandler, h0, hv, hc, hq]

/-- C10 witness at the concrete environment. -/
theorem c10_witness :
    (historyHandler c10Env =
      ⟨200, some { success := true,
                   count := some (sanitizeItems (filterByCryptocurrency
                     (⟨[mkRow "b" 3 "ethereum"], some "Tb"⟩ : QueryResult).items
                     "bitcoin")).length,
                   limit := some c10Validated.limit, email := some c10Validated.email,
                   cryptocurrency := some (some "bitcoin"),
                   data := some (sanitizeItems (filterByCryptocurrency
                     (⟨[mkRow "b" 3 "ethereum"], some "Tb"⟩ : QueryResult).items
                     "bitcoin")),
                   nextToken := some (⟨[mkRow "b" 3 "ethereum"], some "Tb"⟩ :
                     QueryResult).nextToken,
                   hasMore := some ((⟨[mkRow "b" 3 "ethereum"], some "Tb"⟩ :
                     QueryResult).nextToken).isSome,
                   requestId := c10Env.requestId, duration := some c10Env.duration },
        (historyQueryOf c10Env c10Validated).storageCalls⟩) ∧
    (sanitizeItems (filterByCryptocurrency
        (⟨[mkRow "b" 3 "ethereum"], some "Tb"⟩ : QueryResult).items "bitcoin")).length =
      (filterByCryptocurrency
        (⟨[mkRow "b" 3 "ethereum"], some "Tb"⟩ : QueryResult).items "bitcoin").length ∧
    (historyHandler c10Env).statusCode = 200 ∧
    ((historyHandler c10Env).body.map fun b => b.count) = some (some 0) ∧
    ((historyHandler c10Env).body.map fun b => b.data) = some (some []) ∧
    ((historyHandler c10Env).body.map fun b => b.hasMore) = some (some true) ∧
    ((historyHandler c10Env).body.map fun b => b.nextToken) = some (some (some "Tb")) :=
  c10_post_filter_after_page_limit c10Env c10Validated "bitcoin"
    ⟨[mkRow "b" 3 "ethereum"], some "Tb"⟩ rfl rfl rfl rfl

/-- C9 amended: every non-OPTIONS response of either handler carries the
request correlation id; every response carries the duration field except the
400-status responses (missing fields / failed validation), which omit it. -/
theorem c9_amended_duration_absent_on_400 :
    (∀ env : FetchEnv, env.isOptions = false →
      ∃ b, (cryptoPriceHandler env).body = some b ∧ b.requestId = env.requestId ∧
        ((cryptoPriceHandler env).statusCode = 400 → b.duration = none) ∧
        ((cryptoPriceHandler env).statusCode ≠ 400 → b.duration = some env.duration)) ∧
    (∀ env : HistEnv, env.isOptions = false →
      ∃ b, (historyHandler env).body = some b ∧ b.requestId = env.requestId ∧
        ((historyHandler env).statusCode = 400 → b.duration = none) ∧
        ((historyHandler env).statusCode ≠ 400 → b.duration = some env.duration)) := by
  constructor
  · intro env h
    unfold cryptoPriceHandler fetchCatch
    rw [h]
    simp only [Bool.false_eq_true, if_false]
    split
    · refine ⟨_, rfl, rfl, ?_, fun _ => rfl⟩
      dsimp only
      exact fun hq => absurd hq (mapErrorToStatusCode_ne_400 _)
    · split
      · refine ⟨_, rfl, rfl, fun _ => rfl, ?_⟩
        dsimp only
        exact fun hne => absurd rfl hne
      · split
        · refine ⟨_, rfl, rfl, fun _ => rfl, ?_⟩
          dsimp only
          exact fun hne => absurd rfl hne
        · split
          · refine ⟨_, rfl, rfl, ?_, fun _ => rfl⟩
            dsimp only
            exact fun hq => absurd hq (mapErrorToStatusCode_ne_400 _)
          · split
            · refine ⟨_, rfl, rfl, ?_, fun _ => rfl⟩
              dsimp only
              exact fun hq => absurd hq (mapErrorToStatusCode_ne_400 _)
            · split
              · refine ⟨_, rfl, rfl, ?_, fun _ => rfl⟩
                dsimp only
                exact fun hq => absurd hq (by decide)
              · refine ⟨_, rfl, rfl, ?_, fun _ => rfl⟩
                dsimp only
                exact fun hq => absurd hq (by decide)
  · intro env h
    unfold historyHandler
    rw [h]
    simp only [Bool.false_eq_true, if_false]
    split
    · refine ⟨_, rfl, rfl, fun _ => rfl, ?_⟩
      dsimp only
      exact fun hne => absurd rfl hne
    · split
      · refine ⟨_, rfl, rfl, ?_, fun _ => rfl⟩
        dsimp only
        exact fun hq => absurd hq (mapErrorToStatusCodeHist_ne_400 _)
      · refine ⟨_, rfl, rfl, ?_, fun _ => rfl⟩
        dsimp only
        exact fun hq => absurd hq (by decide)

/-- C9 witness: one concrete environment per handler. -/
theorem c9_amended_witness :
    (∃ b, (cryptoPriceHandler c9ceEnv).body = some b ∧ b.requestId = c9ceEnv.requestId ∧
      ((cryptoPriceHandler c9ceEnv).statusCode = 400 → b.duration = none) ∧
      ((cryptoPriceHandler c9ceEnv).statusCode ≠ 400 →
        b.duration = some c9ceEnv.duration)) ∧
    (∃ b, (historyHandler c9HistEnv).body = some b ∧ b.requestId = c9HistEnv.requestId ∧
      ((historyHandler c9HistEnv).statusCode = 400 → b.duration = none) ∧
      ((historyHandler c9HistEnv).statusCode ≠ 400 →
        b.duration = some c9HistEnv.duration)) :=
  ⟨c9_amended_duration_absent_on_400.1 c9ceEnv rfl,
   c9_amended_duration_absent_on_400.2 c9HistEnv rfl⟩

/-- C1 witness at the concrete collision scenario. -/
theorem c1_amended_witness :
    (storeSearchHistory sampleQuote "a@b.com" 0 c1Ids (fun _ => none) [c1Prior]).attempts
        = 1 ∧
    (storeSearchHistory sampleQuote "a@b.com" 0 c1Ids (fun _ => none) [c1Prior]).sleeps
        = [] ∧
    exceptIsOk (storeSearchHistory sampleQuote "a@b.com" 0 c1Ids (fun _ => none)
        [c1Prior]).result = false ∧
    (storeSearchHistory sampleQuote "a@b.com" 0 c1Ids (fun _ => none) [c1Prior]).store
        = [c1Prior] ∧
    ∀ (ids2 : Nat → String) (faults2 : Nat → Option DynErrorKind),
      ∀ r ∈ [c1Prior],
        r ∈ (storeSearchHistory sampleQuote "a@b.com" 0 ids2 faults2 [c1Prior]).store :=
  c1_amended_collision_fails_without_retry sampleQuote "a@b.com" 0 c1Ids (fun _ => none)
    [c1Prior] rfl (by decide)

/-- C2 witness at the concrete schedules. -/
theorem c2_amended_witness :
    (c2Faults 1 = some DynErrorKind.provisionedThroughputExceeded ∧ c2Faults 2 = none ∧
      (([] : List HistoryItem).any fun r => r.id = c2Ids 2) = false ∧
      storeSearchHistory sampleQuote "a@b.com" 0 c2Ids c2Faults [] =
        ⟨Except.ok (mkHistoryItem (c2Ids 2) 0 sampleQuote "a@b.com"),
          mkHistoryItem (c2Ids 2) 0 sampleQuote "a@b.com" :: [], [1000], 2⟩) ∧
    (storeSearchHistory sampleQuote "a@b.com" 0 c2Ids
        (fun _ => some DynErrorKind.provisionedThroughputExceeded) [] =
      ⟨Except.error "Failed to store search history: ProvisionedThroughputExceededException",
        [], [1000, 2000], 3⟩) ∧
    (c2FaultsRnf 1 = some DynErrorKind.resourceNotFound ∧
      storeSearchHistory sampleQuote "a@b.com" 0 c2Ids c2FaultsRnf [] =
        ⟨Except.error GCP.TABLE_NOT_FOUND, [], [], 1⟩) :=
  ⟨⟨rfl, rfl, rfl,
    (c2_amended_throughput_retry_fresh_id sampleQuote "a@b.com" 0 c2Ids []).1
      c2Faults rfl rfl rfl⟩,
   (c2_amended_throughput_retry_fresh_id sampleQuote "a@b.com" 0 c2Ids []).2.1,
   ⟨rfl,
    (c2_amended_throughput_retry_fresh_id sampleQuote "a@b.com" 0 c2Ids []).2.2
      c2FaultsRnf rfl⟩⟩

/-- C7: a supplied cursor that does not decode to structured data fails
validation with the distinct pagination-token message before any storage
query runs (the handler answers 400 having executed zero storage queries),
while a decodable cursor passes through validation unchanged and the one
storage query executed starts exactly at its decoded key. -/
theorem c7_cursor_validation_before_storage (codec : TokenCodec) (p : QueryParams)
    (t : String) (v : ValidatedQuery)
    (hv : validateQueryParams codec { p with nextToken := none } = .ok v)
    (ht : p.nextToken = some t) (hne : t ≠ "") :
    (codec.decode t = none →
      validateQueryParams codec p = .error GSH.INVALID_PAGINATION_TOKEN ∧
      ∀ env : HistEnv, env.isOptions = false → env.params = p → env.codec = codec →
        (historyHandler env).statusCode = 400 ∧ (historyHandler env).storageCalls = [] ∧
        ((historyHandler env).body.map fun b => b.error) =
          some (some GSH.INVALID_PAGINATION_TOKEN)) ∧
    (∀ k, codec.decode t = some k →
      validateQueryParams codec p = .ok { v with nextToken := some t } ∧
      ∀ env : HistEnv, env.isOptions = false → env.params = p → env.codec = codec →
        (historyHandler env).storageCalls = [some k]) := by
  unfold validateQueryParams at hv
  dsimp only at hv
  rcases hL : validateLimit p.limit with eL | lim
  · rw [hL] at hv; simp at hv
  rw [hL] at hv
  dsimp only at hv
  rcases hE : validateEmailParam p.email with eE | em
  · rw [hE] at hv; simp at hv
  rw [hE] at hv
  dsimp only at hv
  rcases hC : validateCryptoParam p.cryptocurrency with eC | cr
  · rw [hC] at hv; simp at hv
  rw [hC] at hv
  dsimp only at hv
  have hv2 : v = ⟨lim, em, cr, none⟩ := by
    have : validateTokenParam codec (none : Option String) = .ok none := rfl
    rw [this] at hv
    dsimp only at hv
    cases hv
    rfl
  subst hv2
  have hvq : ∀ tokRes, validateTokenParam codec p.nextToken = tokRes →
      validateQueryParams codec p =
        (match tokRes with
          | .error e => .error e
          | .ok tok => .ok ⟨lim, em, cr, tok⟩) := by
    intro tokRes htr
    unfold validateQueryParams
    rw [hL]
    dsimp only
    rw [hE]
    dsimp only
    rw [hC]
    dsimp only
    rw [htr]
  constructor
  · intro hd
    have htok : validateTokenParam codec p.nextToken =
        .error GSH.INVALID_PAGINATION_TOKEN := by
      rw [ht]
      unfold validateTokenParam
      dsimp only
      rw [if_neg hne, hd]
    have hfinal := hvq _ htok
    refine ⟨hfinal, ?_⟩
    intro env h0 hp hc
    unfold historyHandler
    rw [h0]
    simp only [Bool.false_eq_true, if_false]
    rw [hp, hc, hfinal]
    exact ⟨rfl, rfl, rfl⟩
  · intro k hd
    have htok : validateTokenParam codec p.nextToken = .ok (some t) := by
      rw [ht]
      unfold validateTokenParam
      dsimp only
      rw [if_neg hne, hd]
    have hfinal := hvq _ htok
    refine ⟨hfinal, ?_⟩
    intro env h0 hp hc
    have hqt : (historyQueryOf env ⟨lim, em, cr, some t⟩).storageCalls = [some k] := by
      unfold historyQueryOf
      rcases em with _ | e
      · dsimp only
        unfold queryRecentHistory runQuery
        rw [hc]
        dsimp only
        rw [hd]
      · dsimp only
        unfold queryHistoryByEmail runQuery
        rw [hc]
        dsimp only
        rw [hd]
    unfold historyHandler
    rw [h0]
    simp only [Bool.false_eq_true, if_false]
    rw [hp, hc, hfinal]
    dsimp only
    split
    · exact hqt
    · exact hqt

/-- C7 witness: a tampered token and a well-formed token under the concrete
codec. -/
theorem c7_witness :
    (validateQueryParams tcodec c7BadParams = .error GSH.INVALID_PAGINATION_TOKEN ∧
      ∀ env : HistEnv, env.isOptions = false → env.params = c7BadParams →
        env.codec = tcodec →
        (historyHandler env).statusCode = 400 ∧ (historyHandler env).storageCalls = [] ∧
        ((historyHandler env).body.map fun b => b.error) =
          some (some GSH.INVALID_PAGINATION_TOKEN)) ∧
    (validateQueryParams tcodec c7GoodParams =
      .ok { limit := 100, email := none, cryptocurrency := none,
            nextToken := some "Tfoo" } ∧
      ∀ env : HistEnv, env.isOptions = false → env.params = c7GoodParams →
        env.codec = tcodec →
        (historyHandler env).storageCalls = [some "foo"]) :=
  ⟨(c7_cursor_validation_before_storage tcodec c7BadParams "X"
      ⟨100, none, none, none⟩ rfl rfl (by decide)).1 rfl,
   (c7_cursor_validation_before_storage tcodec c7GoodParams "Tfoo"
      ⟨100, none, none, none⟩ rfl rfl (by decide)).2 "foo" rfl⟩

end CryptoTracker
